import Mathlib

/-!
Verification of the Smart-Campus enrollment core.

Shallow embedding of the enrollment subsystem:
* the enrollment service orchestrator (`services/academic_service/enrollment_service.py`),
* its read-model queries over `EnrollmentModel` / `SectionModel` / `CourseModel`
  (`services/academic_service/models.py`),
* the API-gateway drop endpoint (`services/api_gateway/routers/academic.py`),
and spec-modelled substrates whose implementation modules are not part of the
source tree (policy engine, event store, enrollment aggregate, audit chain);
each such definition carries a doc comment starting with `Modelled from the spec:`.

Machine integers are modelled as `Nat` (ids, counters, minutes-of-day times);
statuses and semester names are the `String` values the code uses.
-/

namespace SmartCampus

/-! ## Schedules and time conflict -/

/-- A section schedule as built by `_build_policy_context`: `schedule_days`
plus `start_time`/`end_time` at minute precision (the code stores `HH:MM`
strings; lexicographic comparison of those equals comparison of minutes). -/
structure Schedule where
  days : List String
  start_time : Nat
  end_time : Nat
deriving DecidableEq

/-- One row of `student_current_schedule` as built by
`EnrollmentService._get_current_enrollments` (a dict with section id, course
code, days and times). -/
structure ScheduleEntry where
  section_id : Nat
  course_code : String
  days : List String
  start_time : Nat
  end_time : Nat
deriving DecidableEq

def ScheduleEntry.toSchedule (e : ScheduleEntry) : Schedule :=
  ⟨e.days, e.start_time, e.end_time⟩

/-- Modelled from the spec: `shared/domain/policies.py` (TimeConflictPolicy's
pairwise check) is not in the source tree.  Two schedules conflict iff their
`days` sets intersect and their half-open intervals `[a,b)` and `[c,d)`
overlap, i.e. `a < d ∧ c < b`. -/
def schedulesConflict (s1 s2 : Schedule) : Bool :=
  s1.days.any (fun d => s2.days.contains d)
    && decide (s1.start_time < s2.end_time) && decide (s2.start_time < s1.end_time)

/-! ## Policy results and the five built-in policies -/

/-- Modelled from the spec: `shared/domain/policies.py` (PolicyResult) is not
in the source tree.  Each policy returns `{allowed, reason, violated_rules,
metadata}`; of the metadata dict only the `missing_prerequisites` key is
observed by the spec and tests, so it is the one metadata field kept. -/
structure PolicyResult where
  allowed : Bool
  reason : String
  violated_rules : List String
  missing_prerequisites : List String
deriving DecidableEq

/-- Modelled from the spec: policy context.  The source builds a dict in
`EnrollmentService._build_policy_context`; this is its typed form.  The keys
`student_gpa` (a float) and `current_time` (wall clock) are omitted: no
modelled policy or claim reads them. -/
structure Context where
  course_prerequisites : List String
  course_credits : Nat
  course_code : String
  section_max_enrollment : Nat
  section_current_enrollment : Nat
  section_schedule : Schedule
  student_completed_courses : List String
  student_current_credits : Nat
  student_academic_standing : String
  student_current_schedule : List ScheduleEntry

def PolicyResult.ok : PolicyResult := ⟨true, "", [], []⟩

/-- Modelled from the spec: PrerequisitePolicy.  Requires
`course_prerequisites ⊆ student_completed_courses`; violation metadata lists
the missing course codes. -/
def prerequisitePolicy (ctx : Context) : PolicyResult :=
  let missing := ctx.course_prerequisites.filter
    (fun p => !(ctx.student_completed_courses.contains p))
  if missing.isEmpty then PolicyResult.ok
  else ⟨false, "Missing prerequisites", ["prerequisite_requirement"], missing⟩

/-- Modelled from the spec: CapacityPolicy.  Allow only if
`section_current_enrollment < section_max_enrollment`. -/
def capacityPolicy (ctx : Context) : PolicyResult :=
  if ctx.section_current_enrollment < ctx.section_max_enrollment then PolicyResult.ok
  else ⟨false, "Section is at capacity", ["capacity_limit"], []⟩

/-- Modelled from the spec: TimeConflictPolicy.  Denies iff some entry of the
student's current schedule conflicts with the requested section's schedule. -/
def timeConflictPolicy (ctx : Context) : PolicyResult :=
  if ctx.student_current_schedule.any
      (fun e => schedulesConflict ctx.section_schedule e.toSchedule) then
    ⟨false, "Schedule conflict with current enrollment", ["no_time_conflict"], []⟩
  else PolicyResult.ok

/-- Modelled from the spec: CreditLimitPolicy.  Requires
`student_current_credits + course_credits ≤ max_credits` (default 18). -/
def creditLimitPolicy (max_credits : Nat) (ctx : Context) : PolicyResult :=
  if ctx.student_current_credits + ctx.course_credits ≤ max_credits then PolicyResult.ok
  else ⟨false, "Credit limit exceeded", ["credit_limit"], []⟩

/-- Modelled from the spec: AcademicStandingPolicy.  Deny iff standing is
`suspended`; probation is allowed (warn only). -/
def academicStandingPolicy (ctx : Context) : PolicyResult :=
  if ctx.student_academic_standing == "suspended" then
    ⟨false, "Academic standing does not permit enrollment", ["academic_standing"], []⟩
  else PolicyResult.ok

/-- Modelled from the spec: the engine's fixed, cheapest-first evaluation
order `Prerequisite → Capacity → TimeConflict → CreditLimit →
AcademicStanding`. -/
def policyList : List (Context → PolicyResult) :=
  [prerequisitePolicy, capacityPolicy, timeConflictPolicy,
   creditLimitPolicy 18, academicStandingPolicy]

/-- Modelled from the spec: `PolicyEngine.evaluate_all` is not in the source
tree.  It evaluates every policy in the fixed order and returns the overall
verdict together with the individual results (the service then surfaces the
first failing result, src lines 110-122). -/
def evaluateAll (ctx : Context) : Bool × List PolicyResult :=
  let results := policyList.map (fun p => p ctx)
  (results.all (fun r => r.allowed), results)

/-- The first-failing result the enrollment service surfaces as the denial
reason: `next((r for r in policy_results if not r.allowed), None)` with
fallback reason `"Policy violation"` (src `enrollment_service.py` 110-122). -/
def deniedReason (results : List PolicyResult) : String :=
  match results.find? (fun r => !r.allowed) with
  | some r => r.reason
  | none => "Policy violation"

/-- Pendant of `deniedReason` for `violated_rules` (fallback `[]`). -/
def deniedRules (results : List PolicyResult) : List String :=
  match results.find? (fun r => !r.allowed) with
  | some r => r.violated_rules
  | none => []

/-- Spec-side description of the denial the engine must surface: the result of
the first policy, in the fixed order, whose result is not allowed (stated from
the spec's words, to be compared with `deniedReason`/`deniedRules` over
`evaluateAll`). -/
def firstFailing (ctx : Context) : PolicyResult :=
  if !(prerequisitePolicy ctx).allowed then prerequisitePolicy ctx
  else if !(capacityPolicy ctx).allowed then capacityPolicy ctx
  else if !(timeConflictPolicy ctx).allowed then timeConflictPolicy ctx
  else if !(creditLimitPolicy 18 ctx).allowed then creditLimitPolicy 18 ctx
  else academicStandingPolicy ctx

/-! ## Read model (`services/academic_service/models.py`) -/

/-- `SectionModel` (the columns the enrollment flow reads; times as minutes of
day, see `Schedule`). -/
structure SectionModel where
  id : Nat
  course_id : Nat
  semester : String
  schedule_days : List String
  start_time : Nat
  end_time : Nat
  max_enrollment : Nat
  current_enrollment : Nat
  waitlist_size : Nat
  max_waitlist : Nat
deriving DecidableEq

/-- `CourseModel` (the columns the enrollment flow reads). -/
structure CourseModel where
  id : Nat
  course_code : String
  credits : Nat
  prerequisites : List String
deriving DecidableEq

/-- `StudentModel` from `services/user_service/models.py` (the columns the
enrollment flow reads; `gpa` is a float unused by any modelled policy and is
omitted). -/
structure StudentModel where
  user_id : Nat
  academic_standing : String
deriving DecidableEq

/-- `EnrollmentModel` (the columns the enrollment flow reads and writes). -/
structure EnrollmentRow where
  id : Nat
  student_id : Nat
  section_id : Nat
  enrollment_status : String
  is_waitlisted : Bool
  waitlist_position : Option Nat
deriving DecidableEq

/-- The relational read model the service queries through its session. -/
structure ReadModel where
  sections : List SectionModel
  courses : List CourseModel
  students : List StudentModel
  enrollments : List EnrollmentRow
deriving DecidableEq

/-- `EnrollmentService._get_section`. -/
def getSection (db : ReadModel) (section_id : Nat) : Option SectionModel :=
  db.sections.find? (fun s => s.id == section_id)

/-- `EnrollmentService._get_course`. -/
def getCourse (db : ReadModel) (course_id : Nat) : Option CourseModel :=
  db.courses.find? (fun c => c.id == course_id)

/-- `EnrollmentService._get_student`. -/
def getStudent (db : ReadModel) (student_id : Nat) : Option StudentModel :=
  db.students.find? (fun s => s.user_id == student_id)

/-- `EnrollmentService._check_existing_enrollment`: a row for the pair whose
`enrollment_status` is in `["enrolled", "waitlisted"]`. -/
def checkExistingEnrollment (db : ReadModel) (student_id section_id : Nat) :
    Option EnrollmentRow :=
  db.enrollments.find? (fun e =>
    e.student_id == student_id && e.section_id == section_id
      && (["enrolled", "waitlisted"].contains e.enrollment_status))

/-- `EnrollmentService._get_completed_courses`: course codes joined through the
student's rows with status `completed` (inner joins drop rows whose section or
course is absent). -/
def getCompletedCourses (db : ReadModel) (student_id : Nat) : List String :=
  (db.enrollments.filter (fun e =>
      e.student_id == student_id && e.enrollment_status == "completed")).filterMap
    (fun e => (db.sections.find? (fun s => s.id == e.section_id)).bind
      (fun s => (db.courses.find? (fun c => c.id == s.course_id)).map
        (fun c => c.course_code)))

/-- `EnrollmentService._get_current_enrollments`: schedule entries joined
through the student's rows with status `enrolled` in the given semester. -/
def getCurrentEnrollments (db : ReadModel) (student_id : Nat) (semester : String) :
    List ScheduleEntry :=
  (db.enrollments.filter (fun e =>
      e.student_id == student_id && e.enrollment_status == "enrolled")).filterMap
    (fun e => (db.sections.find? (fun s => s.id == e.section_id)).bind
      (fun s =>
        if s.semester == semester then
          (db.courses.find? (fun c => c.id == s.course_id)).map
            (fun c => ({ section_id := s.id, course_code := c.course_code,
                         days := s.schedule_days, start_time := s.start_time,
                         end_time := s.end_time } : ScheduleEntry))
        else none))

/-- `EnrollmentService._calculate_current_credits`: sum of course credits over
the same join as `getCurrentEnrollments`. -/
def calculateCurrentCredits (db : ReadModel) (student_id : Nat) (semester : String) : Nat :=
  ((db.enrollments.filter (fun e =>
      e.student_id == student_id && e.enrollment_status == "enrolled")).filterMap
    (fun e => (db.sections.find? (fun s => s.id == e.section_id)).bind
      (fun s =>
        if s.semester == semester then
          (db.courses.find? (fun c => c.id == s.course_id)).map (fun c => c.credits)
        else none))).sum

/-- `EnrollmentService._build_policy_context` (the typed form of the context
dict; see `Context` for the two omitted keys). -/
def buildPolicyContext (db : ReadModel) (student_id : Nat) (stu : StudentModel)
    (sec : SectionModel) (course : CourseModel) : Context :=
  { course_prerequisites := course.prerequisites
    course_credits := course.credits
    course_code := course.course_code
    section_max_enrollment := sec.max_enrollment
    section_current_enrollment := sec.current_enrollment
    section_schedule := ⟨sec.schedule_days, sec.start_time, sec.end_time⟩
    student_completed_courses := getCompletedCourses db student_id
    student_current_credits := calculateCurrentCredits db student_id sec.semester
    student_academic_standing := stu.academic_standing
    student_current_schedule := getCurrentEnrollments db student_id sec.semester }

/-! ## Domain events and the enrollment aggregate -/

/-- Modelled from the spec: `shared/events/academic_events.py` and the
aggregate's event emission (`services/academic_service/aggregates.py`) are not
in the source tree.  One domain event per state-machine transition. -/
inductive DomainEvent
  | studentEnrolled (student_id section_id : Nat) (course_code : String) (user_id : Nat)
  | studentWaitlisted (student_id section_id : Nat) (position : Nat) (user_id : Nat)
  | studentPromoted (student_id section_id : Nat) (user_id : Nat)
  | studentDropped (student_id section_id : Nat) (user_id : Nat)
  | enrollmentCompleted (student_id section_id : Nat)
deriving DecidableEq

/-- Modelled from the spec: `EnrollmentAggregate`
(`services/academic_service/aggregates.py`) is not in the source tree.  It
buffers uncommitted events; applying an event increments `version` by one. -/
structure EnrollmentAggregate where
  enrollment_id : Nat
  version : Nat
  is_waitlisted : Bool
  waitlist_position : Option Nat
  uncommitted : List DomainEvent
deriving DecidableEq

/-- Modelled from the spec: a fresh aggregate (`EnrollmentAggregate(enrollment_id)`). -/
def EnrollmentAggregate.fresh (enrollment_id : Nat) : EnrollmentAggregate :=
  ⟨enrollment_id, 0, false, none, []⟩

/-- Modelled from the spec: `aggregate.enroll_student` emits `StudentEnrolled`
and applies it (version + 1). -/
def EnrollmentAggregate.enrollStudent (a : EnrollmentAggregate)
    (student_id section_id : Nat) (course_code : String) (user_id : Nat) :
    EnrollmentAggregate :=
  { a with version := a.version + 1
           is_waitlisted := false
           waitlist_position := none
           uncommitted :=
             a.uncommitted ++ [.studentEnrolled student_id section_id course_code user_id] }

/-- Modelled from the spec: `aggregate.add_to_waitlist` emits
`StudentWaitlisted` at the given position and applies it (version + 1). -/
def EnrollmentAggregate.addToWaitlist (a : EnrollmentAggregate)
    (student_id section_id position user_id : Nat) : EnrollmentAggregate :=
  { a with version := a.version + 1
           is_waitlisted := true
           waitlist_position := some position
           uncommitted :=
             a.uncommitted ++ [.studentWaitlisted student_id section_id position user_id] }

/-- Modelled from the spec: `aggregate.mark_events_committed`. -/
def EnrollmentAggregate.markCommitted (a : EnrollmentAggregate) : EnrollmentAggregate :=
  { a with uncommitted := [] }

/-! ## Event store -/

/-- A persisted event envelope: `(stream_id, stream_position, event)` with
1-based per-stream positions. -/
structure Envelope where
  stream_id : String
  stream_position : Nat
  event : DomainEvent
deriving DecidableEq

/-- `Snapshot` from `shared/events/base.py` (module not in the source tree;
fields per the spec, the opaque `state` blob omitted — no claim reads it). -/
structure Snapshot where
  aggregate_id : Nat
  aggregate_type : String
  version : Nat
  event_count : Nat
deriving DecidableEq

/-- `ConcurrencyError{expected, actual}` raised on a version-fence failure. -/
structure ConcurrencyError where
  expected : Nat
  actual : Nat
deriving DecidableEq

/-- Modelled from the spec: `EventStore` (`shared/events/store.py`) is not in
the source tree.  Streams are kept as an association list from stream id to
the envelope list in append order; snapshots accumulate. -/
structure EventStore where
  streams : List (String × List Envelope)
  snapshots : List Snapshot
deriving DecidableEq

/-- The envelopes of one stream (empty when the stream does not exist). -/
def EventStore.stream (store : EventStore) (stream_id : String) : List Envelope :=
  match store.streams.find? (fun p => p.1 == stream_id) with
  | some p => p.2
  | none => []

/-- Replace (or create) one stream's envelope list. -/
def EventStore.setStream (store : EventStore) (stream_id : String)
    (es : List Envelope) : EventStore :=
  if (store.streams.find? (fun p => p.1 == stream_id)).isSome then
    { store with streams :=
        store.streams.map (fun p => if p.1 == stream_id then (p.1, es) else p) }
  else
    { store with streams := store.streams ++ [(stream_id, es)] }

/-- The stream's current tail version: the `stream_position` of the last
envelope, `0` for an empty stream. -/
def streamTail (es : List Envelope) : Nat :=
  match es.getLast? with
  | some e => e.stream_position
  | none => 0

/-- Modelled from the spec: `EventStore.append(event, stream_id,
expected_version)`.  With `expected_version = None` it appends at the current
tail; otherwise it requires `tail == expected_version`, failing with
`ConcurrencyError{expected, actual}` on mismatch, and assigns
`stream_position = expected_version + 1` (or `tail + 1`). -/
def EventStore.append (store : EventStore) (event : DomainEvent)
    (stream_id : String) (expected_version : Option Nat) :
    Except ConcurrencyError (EventStore × Envelope) :=
  let es := store.stream stream_id
  let tail := streamTail es
  match expected_version with
  | none =>
    let env : Envelope := ⟨stream_id, tail + 1, event⟩
    .ok (store.setStream stream_id (es ++ [env]), env)
  | some v =>
    if tail ≠ v then .error ⟨v, tail⟩
    else
      let env : Envelope := ⟨stream_id, v + 1, event⟩
      .ok (store.setStream stream_id (es ++ [env]), env)

/-- Modelled from the spec: `EventStore.save_snapshot`. -/
def EventStore.saveSnapshot (store : EventStore) (snap : Snapshot) : EventStore :=
  { store with snapshots := store.snapshots ++ [snap] }

/-! ## The enrollment service (`enrollment_service.py`) -/

/-- One observed call of the service into `EventStore.append`: the stream it
targeted and the `expected_version` it passed (src lines 164-169). -/
structure AppendCall where
  stream_id : String
  expected_version : Option Nat
deriving DecidableEq

/-- The error surface of `enroll_student`: `ValueError` for missing entities,
duplicate enrollment and a full section+waitlist,
`EnrollmentPolicyViolationError{reason, violated_rules}` for denials, and a
propagated `ConcurrencyError` from the store. -/
inductive EnrollError
  | notFound (what : String)
  | alreadyEnrolled
  | policyViolation (reason : String) (violated_rules : List String)
  | sectionFull
  | concurrency (expected actual : Nat)
deriving DecidableEq

/-- State threaded through the service: the relational read model plus the
event store (which also holds snapshots). -/
structure ServiceState where
  db : ReadModel
  store : EventStore
deriving DecidableEq

/-- The `for event in aggregate.get_uncommitted_events(): await
self.event_store.append(event=event, stream_id=stream_id,
expected_version=None)` loop (src lines 166-169), additionally recording each
append call made.  A raised `ConcurrencyError` propagates. -/
def appendEvents (store : EventStore) (stream_id : String) :
    List DomainEvent → Except ConcurrencyError (EventStore × List AppendCall)
  | [] => .ok (store, [])
  | ev :: rest =>
    match store.append ev stream_id none with
    | .error e => .error e
    | .ok (store1, _) =>
      match appendEvents store1 stream_id rest with
      | .error e => .error e
      | .ok (store2, calls) => .ok (store2, ⟨stream_id, none⟩ :: calls)

/-- The tail of `enroll_student` after the aggregate mutation (src lines
164-205): persist uncommitted events to stream `enrollment-{enrollment_id}`,
mark committed, save a snapshot, and insert the read-model row while updating
the section row in place. -/
def finishEnrollment (st : ServiceState) (sec1 : SectionModel)
    (aggregate : EnrollmentAggregate) (newId student_id section_id : Nat) :
    ServiceState × Except EnrollError (EnrollmentRow × List AppendCall) :=
  let stream_id := "enrollment-" ++ toString newId
  match appendEvents st.store stream_id aggregate.uncommitted with
  | .error e => (st, .error (.concurrency e.expected e.actual))
  | .ok (store1, calls) =>
    let snap : Snapshot := ⟨newId, "enrollment", aggregate.version, aggregate.version⟩
    let store2 := store1.saveSnapshot snap
    let row : EnrollmentRow :=
      { id := newId
        student_id := student_id
        section_id := section_id
        enrollment_status := if aggregate.is_waitlisted then "waitlisted" else "enrolled"
        is_waitlisted := aggregate.is_waitlisted
        waitlist_position := aggregate.waitlist_position }
    let db1 : ReadModel :=
      { st.db with
          sections := st.db.sections.map (fun s => if s.id == sec1.id then sec1 else s)
          enrollments := st.db.enrollments ++ [row] }
    (⟨db1, store2⟩, .ok (row, calls))

/-- `EnrollmentService.enroll_student` (src lines 51-205).  The policy engine
is the injected collaborator, as in the constructor; `newId` stands for the
fresh `uuid4()` enrollment id.  The state is threaded so that an error result
also reports the state at the raise. -/
def enroll_student (engine : Nat → Nat → Context → Bool × List PolicyResult)
    (st : ServiceState) (student_id section_id user_id newId : Nat) :
    ServiceState × Except EnrollError (EnrollmentRow × List AppendCall) :=
  match getSection st.db section_id with
  | none => (st, .error (.notFound ("section")))
  | some sec =>
    match getCourse st.db sec.course_id with
    | none => (st, .error (.notFound ("course")))
    | some course =>
      match getStudent st.db student_id with
      | none => (st, .error (.notFound ("student")))
      | some stu =>
        if (checkExistingEnrollment st.db student_id section_id).isSome then
          (st, .error .alreadyEnrolled)
        else
          let ctx := buildPolicyContext st.db student_id stu sec course
          let res := engine student_id section_id ctx
          if !res.1 then
            (st, .error (.policyViolation (deniedReason res.2) (deniedRules res.2)))
          else
            let aggregate0 := EnrollmentAggregate.fresh newId
            if sec.current_enrollment < sec.max_enrollment then
              let aggregate := aggregate0.enrollStudent student_id section_id
                course.course_code user_id
              let sec1 := { sec with current_enrollment := sec.current_enrollment + 1 }
              finishEnrollment st sec1 aggregate newId student_id section_id
            else if sec.waitlist_size ≥ sec.max_waitlist then
              (st, .error .sectionFull)
            else
              let pos := sec.waitlist_size + 1
              let aggregate := aggregate0.addToWaitlist student_id section_id pos user_id
              let sec1 := { sec with waitlist_size := sec.waitlist_size + 1 }
              finishEnrollment st sec1 aggregate newId student_id section_id

/-- The policy engine instance: `evaluate_all(student_id, section_id, context)`
with the spec's fixed policy list (policies are pure functions of the context,
so the ids are unused). -/
def evaluateAllEngine (_student_id _section_id : Nat) (ctx : Context) :
    Bool × List PolicyResult :=
  evaluateAll ctx

/-! ## Gateway drop endpoint (`services/api_gateway/routers/academic.py`) -/

/-- `HTTPException(status_code, detail)` as raised by the gateway router. -/
structure HTTPError where
  status_code : Nat
  detail : String
deriving DecidableEq

/-- `drop_enrollment` (src `academic.py` lines 576-593): the handler logs and
unconditionally raises `HTTPException(501, "Drop enrollment will be
implemented in Academic Service")`; no service call is made and no state is
touched. -/
def drop_enrollment (st : ServiceState) (_enrollment_id : Nat) :
    ServiceState × Except HTTPError Unit :=
  (st, .error ⟨501, "Drop enrollment will be implemented in Academic Service"⟩)

/-! ## Audit hash chain (`shared/domain/audit.py`) -/

/-- Modelled from the spec: `shared/domain/audit.py` is not in the source
tree.  `entry_hash = H(id ∥ timestamp ∥ action ∥ resource_type ∥ resource_id ∥
actor_id ∥ metadata ∥ previous_hash)` with `H` SHA-256 over a canonical
serialization.  The canonical serialization is injective by construction
(stable key order and encodings) and SHA-256 is treated as collision-free, so
the digest is modelled as a constructor over the serialized fields: an
injective function into the hash domain.  `genesis` models the first entry's
`previous_hash = ""`. -/
inductive HashVal
  | genesis
  | digest (id timestamp : Nat) (action resource_type : String)
      (resource_id actor_id : Option Nat) (metadata : String) (previous : HashVal)
deriving DecidableEq

/-- `AuditEntry` per the spec's data model: all fields plus the stored
`previous_hash` and `entry_hash`. -/
structure AuditLogEntry where
  id : Nat
  timestamp : Nat
  action : String
  resource_type : String
  resource_id : Option Nat
  actor_id : Option Nat
  metadata : String
  previous_hash : HashVal
  entry_hash : HashVal
deriving DecidableEq

/-- Modelled from the spec: the hash computed over all fields of an entry
other than its stored `entry_hash`. -/
def computeEntryHash (e : AuditLogEntry) : HashVal :=
  .digest e.id e.timestamp e.action e.resource_type e.resource_id e.actor_id
    e.metadata e.previous_hash

/-- Modelled from the spec: local verification, `verify_hash()` recomputes the
hash from the entry's fields and compares it with the stored one. -/
def AuditLogEntry.verifyHash (e : AuditLogEntry) : Bool :=
  e.entry_hash == computeEntryHash e

/-- Modelled from the spec: pairwise verification, `verify_chain(prev)` checks
`self.previous_hash == prev.entry_hash ∧ self.verify_hash()`. -/
def AuditLogEntry.verifyChain (e prev : AuditLogEntry) : Bool :=
  (e.previous_hash == prev.entry_hash) && e.verifyHash

/-- Modelled from the spec: `AuditLogEntry.create(...)` builds the entry and
stores the hash computed over its fields. -/
def AuditLogEntry.create (id timestamp : Nat) (action resource_type : String)
    (resource_id actor_id : Option Nat) (metadata : String)
    (previous_hash : HashVal) : AuditLogEntry :=
  { id := id, timestamp := timestamp, action := action
    resource_type := resource_type, resource_id := resource_id
    actor_id := actor_id, metadata := metadata, previous_hash := previous_hash
    entry_hash := .digest id timestamp action resource_type resource_id actor_id
      metadata previous_hash }

/-- A stream's positions are the gap-free, duplicate-free sequence `1, 2, …,
length`. -/
def gapFree (es : List Envelope) : Prop :=
  es.map (fun e => e.stream_position) = List.range' 1 es.length

/-! ## Concrete fixtures used by witnesses and counterexamples -/

/-- Course `CS-101`, no prerequisites. -/
def introCourse : CourseModel := ⟨40, "CS-101", 3, []⟩

/-- Course `CS-201`, prerequisites `[CS-101, MATH-100]` (scenario S1). -/
def csCourse : CourseModel := ⟨41, "CS-201", 4, ["CS-101", "MATH-100"]⟩

/-- A past section of `CS-101` the sample student completed. -/
def doneSection : SectionModel := ⟨1, 40, "S25", ["Monday"], 600, 660, 30, 1, 0, 10⟩

/-- The requested section of `CS-201` (open capacity). -/
def targetSection : SectionModel := ⟨2, 41, "F25", ["Monday"], 600, 660, 30, 0, 0, 10⟩

/-- A section of `CS-101` with one seat left. -/
def openSection : SectionModel := ⟨3, 40, "F25", ["Tuesday"], 600, 660, 2, 1, 0, 10⟩

/-- A full section of `CS-101` with room on the waitlist. -/
def fullSection : SectionModel := ⟨4, 40, "F25", ["Tuesday"], 600, 660, 2, 2, 0, 10⟩

/-- A section at capacity whose waitlist holds positions 1 and 2 (scenario S6). -/
def waitlistedSection : SectionModel := ⟨5, 40, "F25", ["Monday"], 600, 660, 1, 1, 2, 10⟩

/-- The sample student, in good standing. -/
def sampleStudent : StudentModel := ⟨1, "good"⟩

/-- Read model for the prerequisite-denial scenario: the student completed
only `CS-101` and requests the `CS-201` section. -/
def dbPrereq : ReadModel :=
  ⟨[doneSection, targetSection], [introCourse, csCourse], [sampleStudent],
   [⟨100, 1, 1, "completed", false, none⟩]⟩

def stPrereq : ServiceState := ⟨dbPrereq, ⟨[], []⟩⟩

/-- Read model for a clean successful enrollment into `openSection`. -/
def dbOpen : ReadModel := ⟨[openSection], [introCourse], [sampleStudent], []⟩

def stOpen : ServiceState := ⟨dbOpen, ⟨[], []⟩⟩

/-- Read model for a waitlist placement into `fullSection`. -/
def dbFull : ReadModel := ⟨[fullSection], [introCourse], [sampleStudent], []⟩

def stFull : ServiceState := ⟨dbFull, ⟨[], []⟩⟩

/-- Read model for the drop scenario S6: `waitlistedSection` at capacity, one
enrolled row and waitlisted rows at positions 1 and 2. -/
def dbDrop : ReadModel :=
  ⟨[waitlistedSection], [introCourse], [sampleStudent],
   [⟨601, 1, 5, "enrolled", false, none⟩, ⟨602, 11, 5, "waitlisted", true, some 1⟩,
    ⟨603, 12, 5, "waitlisted", true, some 2⟩]⟩

def stDrop : ServiceState := ⟨dbDrop, ⟨[], []⟩⟩

/-- Read model with a prior dropped row for the (student, section) pair. -/
def dbDropped : ReadModel :=
  ⟨[openSection], [introCourse], [sampleStudent],
   [⟨300, 1, 3, "dropped", false, none⟩]⟩

def stDropped : ServiceState := ⟨dbDropped, ⟨[], []⟩⟩

/-- Read model with an active (waitlisted) row for the (student, section) pair. -/
def dbActive : ReadModel :=
  ⟨[openSection], [introCourse], [sampleStudent],
   [⟨301, 1, 3, "waitlisted", true, some 1⟩]⟩

def stActive : ServiceState := ⟨dbActive, ⟨[], []⟩⟩

/-- A policy context whose first failing policy is Capacity (prerequisites
pass, section full). -/
def deniedCtx : Context :=
  { course_prerequisites := [], course_credits := 3, course_code := "CS-101",
    section_max_enrollment := 2, section_current_enrollment := 2,
    section_schedule := ⟨["Monday"], 600, 660⟩, student_completed_courses := [],
    student_current_credits := 0, student_academic_standing := "good",
    student_current_schedule := [] }

/-! ## Theorems -/

/-- C4: for every pair of schedules the time-conflict check reports a conflict
iff their `days` sets intersect and their half-open intervals `[a,b)`, `[c,d)`
overlap (`a < d ∧ c < b`); the TimeConflictPolicy denies iff some entry of the
student's schedule conflicts with the section's schedule; identical times on
disjoint days are no conflict, and a partial overlap on a shared day is one. -/
theorem c4_time_conflict_characterization :
    (∀ s1 s2 : Schedule, schedulesConflict s1 s2 = true ↔
      ((∃ d, d ∈ s1.days ∧ d ∈ s2.days) ∧
        s1.start_time < s2.end_time ∧ s2.start_time < s1.end_time)) ∧
    (∀ ctx : Context, (timeConflictPolicy ctx).allowed = false ↔
      ∃ e ∈ ctx.student_current_schedule,
        schedulesConflict ctx.section_schedule e.toSchedule = true) ∧
    schedulesConflict ⟨[("Monday")], 600, 660⟩ ⟨[("Tuesday")], 600, 660⟩ = false ∧
    schedulesConflict ⟨[("Monday"), ("Wednesday")], 600, 660⟩
      ⟨[("Monday")], 630, 720⟩ = true := by
  refine ⟨fun s1 s2 => ?_, fun ctx => ?_, by decide, by decide⟩
  · simp [schedulesConflict, List.any_eq_true, Bool.and_eq_true, decide_eq_true_iff,
      List.contains, List.elem_iff, and_assoc]
  · unfold timeConflictPolicy
    split
    · next h =>
      simp only [List.any_eq_true] at h
      simpa using h
    · next h =>
      simp only [List.any_eq_true] at h
      simpa [PolicyResult.ok] using h

/-- C6: for every correctly created entry (its stored hash matches its
fields), any entry that keeps that stored hash but differs in one of the
hashed fields fails `verify_hash`; and `verify_chain(prev)` holds iff
`previous_hash = prev.entry_hash` and `verify_hash` holds. -/
theorem c6_audit_tamper_and_chain :
    (∀ e e' : AuditLogEntry, e.verifyHash = true → e'.entry_hash = e.entry_hash →
      (e'.id ≠ e.id ∨ e'.timestamp ≠ e.timestamp ∨ e'.action ≠ e.action ∨
        e'.resource_type ≠ e.resource_type ∨ e'.resource_id ≠ e.resource_id ∨
        e'.actor_id ≠ e.actor_id ∨ e'.metadata ≠ e.metadata ∨
        e'.previous_hash ≠ e.previous_hash) →
      e'.verifyHash = false) ∧
    (∀ e prev : AuditLogEntry, e.verifyChain prev = true ↔
      (e.previous_hash = prev.entry_hash ∧ e.verifyHash = true)) := by
  constructor
  · intro e e' he heq hdiff
    have he2 : e.entry_hash = computeEntryHash e := by
      simpa [AuditLogEntry.verifyHash, beq_iff_eq] using he
    cases hb : e'.verifyHash
    · rfl
    · exfalso
      have he2' : e'.entry_hash = computeEntryHash e' := by
        simpa [AuditLogEntry.verifyHash, beq_iff_eq] using hb
      have : computeEntryHash e = computeEntryHash e' := by
        rw [← he2, ← heq, he2']
      simp only [computeEntryHash, HashVal.digest.injEq] at this
      obtain ⟨h1, h2, h3, h4, h5, h6, h7, h8⟩ := this
      rcases hdiff with h | h | h | h | h | h | h | h
      · exact h h1.symm
      · exact h h2.symm
      · exact h h3.symm
      · exact h h4.symm
      · exact h h5.symm
      · exact h h6.symm
      · exact h h7.symm
      · exact h h8.symm
  · intro e prev
    simp [AuditLogEntry.verifyChain, Bool.and_eq_true, beq_iff_eq]

/-- C6 witness: a concrete created entry verifies; the same entry with
`action` changed from `create` to `delete` but the old stored hash fails
`verify_hash` (the scenario of `test_tamper_detection`). -/
theorem c6_audit_witness :
    (AuditLogEntry.create 1 10 ("create") ("user") (some 5) (some 9) ("m")
        HashVal.genesis).verifyHash = true ∧
    ({ id := 1, timestamp := 10, action := "delete", resource_type := "user",
       resource_id := some 5, actor_id := some 9, metadata := "m",
       previous_hash := HashVal.genesis,
       entry_hash := (AuditLogEntry.create 1 10 ("create") ("user") (some 5)
         (some 9) ("m") HashVal.genesis).entry_hash } : AuditLogEntry).action ≠
      (AuditLogEntry.create 1 10 ("create") ("user") (some 5) (some 9) ("m")
        HashVal.genesis).action ∧
    ({ id := 1, timestamp := 10, action := "delete", resource_type := "user",
       resource_id := some 5, actor_id := some 9, metadata := "m",
       previous_hash := HashVal.genesis,
       entry_hash := (AuditLogEntry.create 1 10 ("create") ("user") (some 5)
         (some 9) ("m") HashVal.genesis).entry_hash } : AuditLogEntry).verifyHash
      = false :=
  ⟨by decide, by decide,
    c6_audit_tamper_and_chain.1
      (AuditLogEntry.create 1 10 ("create") ("user") (some 5) (some 9) ("m")
        HashVal.genesis)
      { id := 1, timestamp := 10, action := "delete", resource_type := "user",
        resource_id := some 5, actor_id := some 9, metadata := "m",
        previous_hash := HashVal.genesis,
        entry_hash := (AuditLogEntry.create 1 10 ("create") ("user") (some 5)
          (some 9) ("m") HashVal.genesis).entry_hash }
      (by decide) rfl (Or.inr (Or.inr (Or.inl (by decide))))⟩

theorem find?_map_set (l : List (String × List Envelope)) (sid : String)
    (es : List Envelope) :
    (l.map (fun p => if p.1 == sid then (p.1, es) else p)).find? (fun p => p.1 == sid)
      = (l.find? (fun p => p.1 == sid)).map (fun p => (p.1, es)) := by
  rw [List.find?_map]
  have hfn : ((fun p : String × List Envelope => p.1 == sid) ∘
      (fun p => if p.1 == sid then (p.1, es) else p)) = fun p => p.1 == sid := by
    funext p
    by_cases h : p.1 = sid <;> simp [h]
  rw [hfn]
  cases hfind : l.find? (fun p => p.1 == sid) with
  | none => rfl
  | some p =>
    have hp := List.find?_some hfind
    simp only at hp
    have hp2 : p.1 = sid := by simpa using hp
    simp [hp2]

theorem EventStore.stream_setStream (store : EventStore) (sid : String)
    (es : List Envelope) : (store.setStream sid es).stream sid = es := by
  unfold EventStore.setStream
  by_cases hs : (store.streams.find? (fun p => p.1 == sid)).isSome = true
  · rw [if_pos hs]
    unfold EventStore.stream
    rw [find?_map_set]
    cases hfind : store.streams.find? (fun p => p.1 == sid) with
    | some p => rfl
    | none => rw [hfind] at hs; simp at hs
  · rw [if_neg hs]
    unfold EventStore.stream
    rw [List.find?_append]
    cases hfind : store.streams.find? (fun p => p.1 == sid) with
    | some p => rw [hfind] at hs; simp at hs
    | none => simp [List.find?_cons, Option.none_or]

theorem streamTail_eq_length {es : List Envelope} (h : gapFree es) :
    streamTail es = es.length := by
  cases hes : es.getLast? with
  | none =>
    have he : es = [] := List.getLast?_eq_none_iff.mp hes
    subst he; rfl
  | some e =>
    have h1 : (es.map (fun x => x.stream_position)).getLast? = some e.stream_position := by
      rw [List.getLast?_map, hes]; rfl
    rw [h] at h1
    cases hn : es.length with
    | zero =>
      have he : es = [] := List.length_eq_zero.mp hn
      rw [he] at hes; simp at hes
    | succ m =>
      rw [hn, List.range'_concat, List.getLast?_concat] at h1
      have h2 := Option.some.inj h1
      unfold streamTail
      rw [hes]
      dsimp only
      omega

theorem gapFree_concat {es : List Envelope} (h : gapFree es) (sid : String)
    (ev : DomainEvent) : gapFree (es ++ [⟨sid, es.length + 1, ev⟩]) := by
  unfold gapFree at h ⊢
  rw [List.map_append, h]
  simp [List.range'_concat]
  omega

/-- C5: with a gap-free stream and a non-None `expected_version`, `append`
fails with `ConcurrencyError{expected, actual}` iff the stream tail differs
from `expected_version`; on success the envelope gets `stream_position =
expected_version + 1` (`tail + 1` for `expected_version = None`), it is placed
at the end of the stream, and the stream's positions stay the gap-free
sequence `1, 2, 3, …`. -/
theorem c5_event_store_append_fencing (store : EventStore) (ev : DomainEvent)
    (sid : String) (v : Nat) (h : gapFree (store.stream sid)) :
    ((∃ err, store.append ev sid (some v) = .error err) ↔
      streamTail (store.stream sid) ≠ v) ∧
    (∀ err, store.append ev sid (some v) = .error err →
      err = ⟨v, streamTail (store.stream sid)⟩) ∧
    (∀ store1 env, store.append ev sid (some v) = .ok (store1, env) →
      env.stream_position = v + 1 ∧
      store1.stream sid = store.stream sid ++ [env] ∧
      gapFree (store1.stream sid)) ∧
    (∀ store1 env, store.append ev sid none = .ok (store1, env) →
      env.stream_position = streamTail (store.stream sid) + 1 ∧
      store1.stream sid = store.stream sid ++ [env] ∧
      gapFree (store1.stream sid)) := by
  have hlen : streamTail (store.stream sid) = (store.stream sid).length :=
    streamTail_eq_length h
  refine ⟨?_, ?_, ?_, ?_⟩
  · constructor
    · rintro ⟨err, herr⟩
      simp only [EventStore.append] at herr
      by_cases hv : streamTail (store.stream sid) ≠ v
      · exact hv
      · simp [hv] at herr
    · intro hv
      refine ⟨⟨v, streamTail (store.stream sid)⟩, ?_⟩
      simp [EventStore.append, hv]
  · intro err herr
    simp only [EventStore.append] at herr
    by_cases hv : streamTail (store.stream sid) ≠ v
    · simp [hv] at herr
      exact herr.symm
    · simp [hv] at herr
  · intro store1 env hok
    simp only [EventStore.append] at hok
    by_cases hv : streamTail (store.stream sid) ≠ v
    · simp [hv] at hok
    · simp [hv] at hok
      obtain ⟨hstore, henv⟩ := hok
      push_neg at hv
      refine ⟨by rw [← henv], ?_, ?_⟩
      · rw [← hstore, EventStore.stream_setStream, ← henv]
      · rw [← hstore, EventStore.stream_setStream]
        have hv1 : v + 1 = (store.stream sid).length + 1 := by omega
        rw [hv1]
        exact gapFree_concat h sid ev
  · intro store1 env hok
    simp only [EventStore.append] at hok
    cases hok
    refine ⟨rfl, EventStore.stream_setStream _ _ _, ?_⟩
    rw [EventStore.stream_setStream, hlen]
    exact gapFree_concat h sid ev

/-- C5 witness: on the empty store (tail 0, trivially gap-free),
appending with `expected_version = 1` fails the fence, and the theorem
instance gives the mismatch criterion; the concrete error carries
`{expected = 1, actual = 0}`. -/
theorem c5_event_store_witness :
    gapFree ((⟨[], []⟩ : EventStore).stream ("s")) ∧
    ((∃ err, (⟨[], []⟩ : EventStore).append (.studentEnrolled 1 2 ("CS-101") 3)
        ("s") (some 1) = .error err) ↔
      streamTail ((⟨[], []⟩ : EventStore).stream ("s")) ≠ 1) ∧
    (⟨[], []⟩ : EventStore).append (.studentEnrolled 1 2 ("CS-101") 3) ("s")
      (some 1) = .error ⟨1, 0⟩ :=
  ⟨rfl,
    (c5_event_store_append_fencing (⟨[], []⟩ : EventStore)
      (.studentEnrolled 1 2 ("CS-101") 3) ("s") 1 rfl).1,
    rfl⟩

theorem appendEvents_ok (store : EventStore) (sid : String)
    (events : List DomainEvent) :
    ∃ store1, appendEvents store sid events =
      .ok (store1, events.map (fun _ => (⟨sid, none⟩ : AppendCall))) := by
  induction events generalizing store with
  | nil => exact ⟨store, rfl⟩
  | cons ev rest ih =>
    obtain ⟨store2, h2⟩ := ih (store.setStream sid
      (store.stream sid ++ [⟨sid, streamTail (store.stream sid) + 1, ev⟩]))
    refine ⟨store2, ?_⟩
    simp [appendEvents, EventStore.append, h2]

theorem finishEnrollment_spec (st : ServiceState) (sec1 : SectionModel)
    (agg : EnrollmentAggregate) (newId student_id section_id : Nat) :
    ∃ store2,
      finishEnrollment st sec1 agg newId student_id section_id =
        (⟨{ st.db with
              sections := st.db.sections.map (fun s => if s.id == sec1.id then sec1 else s)
              enrollments := st.db.enrollments ++
                [{ id := newId, student_id := student_id, section_id := section_id,
                   enrollment_status := if agg.is_waitlisted then "waitlisted" else "enrolled",
                   is_waitlisted := agg.is_waitlisted,
                   waitlist_position := agg.waitlist_position }] }, store2⟩,
         .ok ({ id := newId, student_id := student_id, section_id := section_id,
                enrollment_status := if agg.is_waitlisted then "waitlisted" else "enrolled",
                is_waitlisted := agg.is_waitlisted,
                waitlist_position := agg.waitlist_position },
              agg.uncommitted.map (fun _ =>
                (⟨"enrollment-" ++ toString newId, none⟩ : AppendCall)))) := by
  obtain ⟨store1, h1⟩ :=
    appendEvents_ok st.store ("enrollment-" ++ toString newId) agg.uncommitted
  exact ⟨store1.saveSnapshot ⟨newId, "enrollment", agg.version, agg.version⟩,
    by simp [finishEnrollment, h1]⟩

theorem enroll_student_cases (engine : Nat → Nat → Context → Bool × List PolicyResult)
    (st : ServiceState) (student_id section_id user_id newId : Nat) :
    (∃ e, enroll_student engine st student_id section_id user_id newId = (st, .error e) ∧
      ∀ x a, e ≠ .concurrency x a) ∨
    (∃ st1 row, enroll_student engine st student_id section_id user_id newId =
      (st1, .ok (row, [⟨"enrollment-" ++ toString newId, none⟩]))) := by
  unfold enroll_student
  cases hsec : getSection st.db section_id with
  | none => exact Or.inl ⟨_, rfl, fun x a h => EnrollError.noConfusion h⟩
  | some sec =>
    dsimp only
    cases hcourse : getCourse st.db sec.course_id with
    | none => exact Or.inl ⟨_, rfl, fun x a h => EnrollError.noConfusion h⟩
    | some course =>
      dsimp only
      cases hstu : getStudent st.db student_id with
      | none => exact Or.inl ⟨_, rfl, fun x a h => EnrollError.noConfusion h⟩
      | some stu =>
        dsimp only
        by_cases hex : (checkExistingEnrollment st.db student_id section_id).isSome = true
        · rw [if_pos hex]
          exact Or.inl ⟨_, rfl, fun x a h => EnrollError.noConfusion h⟩
        · rw [if_neg hex]
          by_cases hallow : (engine student_id section_id
              (buildPolicyContext st.db student_id stu sec course)).1 = true
          · rw [if_neg (by simp [hallow])]
            by_cases hcap : sec.current_enrollment < sec.max_enrollment
            · rw [if_pos hcap]
              obtain ⟨store2, hfin⟩ := finishEnrollment_spec st
                { sec with current_enrollment := sec.current_enrollment + 1 }
                ((EnrollmentAggregate.fresh newId).enrollStudent student_id section_id
                  course.course_code user_id)
                newId student_id section_id
              rw [hfin]
              exact Or.inr ⟨_, _, rfl⟩
            · rw [if_neg hcap]
              by_cases hwl : sec.waitlist_size ≥ sec.max_waitlist
              · rw [if_pos hwl]
                exact Or.inl ⟨_, rfl, fun x a h => EnrollError.noConfusion h⟩
              · rw [if_neg hwl]
                obtain ⟨store2, hfin⟩ := finishEnrollment_spec st
                  { sec with waitlist_size := sec.waitlist_size + 1 }
                  ((EnrollmentAggregate.fresh newId).addToWaitlist student_id section_id
                    (sec.waitlist_size + 1) user_id)
                  newId student_id section_id
                rw [hfin]
                exact Or.inr ⟨_, _, rfl⟩
          · rw [if_pos (by simp [Bool.not_eq_true] at hallow; simp [hallow])]
            exact Or.inl ⟨_, rfl, fun x a h => EnrollError.noConfusion h⟩

theorem find?_replace (l : List SectionModel) (section_id : Nat)
    (sec sec1 : SectionModel)
    (hfind : l.find? (fun s => s.id == section_id) = some sec)
    (hid : sec1.id = sec.id) :
    (l.map (fun s => if s.id == sec1.id then sec1 else s)).find?
      (fun s => s.id == section_id) = some sec1 := by
  have hsec : sec.id = section_id := by simpa using List.find?_some hfind
  rw [List.find?_map]
  have hfn : ((fun s : SectionModel => s.id == section_id) ∘
      (fun s => if s.id == sec1.id then sec1 else s)) =
      fun s => s.id == section_id := by
    funext s
    by_cases h : s.id = sec1.id
    · simp [h, hid, hsec]
    · simp [h]
  rw [hfn, hfind]
  simp [hid, hsec]

/-- C1 (amended): on every successful call the service's append calls target
exactly the stream `enrollment-{enrollment_id}` and each passes
`expected_version = None`; consequently no call of `enroll_student` can
surface a `ConcurrencyError`. -/
theorem c1_appends_at_tail_with_none
    (engine : Nat → Nat → Context → Bool × List PolicyResult)
    (st : ServiceState) (student_id section_id user_id newId : Nat) :
    (∀ st1 row calls,
      enroll_student engine st student_id section_id user_id newId =
        (st1, .ok (row, calls)) →
      calls = [⟨"enrollment-" ++ toString newId, none⟩]) ∧
    (∀ st1 x a, enroll_student engine st student_id section_id user_id newId ≠
      (st1, .error (.concurrency x a))) := by
  rcases enroll_student_cases engine st student_id section_id user_id newId with
    ⟨e, he, hne⟩ | ⟨st1, row, hok⟩
  · refine ⟨?_, ?_⟩
    · intro st2 row calls h
      rw [he] at h
      exact absurd (congrArg Prod.snd h) (by simp)
    · intro st2 x a h
      rw [he] at h
      have h2 := congrArg Prod.snd h
      simp only [Except.error.injEq] at h2
      exact hne x a h2
  · refine ⟨?_, ?_⟩
    · intro st2 row2 calls h
      rw [hok] at h
      have h2 := congrArg Prod.snd h
      simp only [Except.ok.injEq, Prod.mk.injEq] at h2
      exact h2.2.symm
    · intro st2 x a h
      rw [hok] at h
      exact absurd (congrArg Prod.snd h) (by simp)

/-- C1 counterexample: a concrete successful enrollment whose (single)
event-store append passed `expected_version = None` — not the aggregate's
version — so the claimed version fencing does not happen on this path. -/
theorem c1_counterexample_none_passed :
    ((enroll_student evaluateAllEngine stOpen 1 3 9 7).2.toOption.map
      (fun r => r.2)) = some [⟨"enrollment-7", none⟩] ∧
    (⟨"enrollment-7", none⟩ : AppendCall).expected_version = none := by
  exact ⟨rfl, rfl⟩

/-- C1 (amended) witness: the concrete successful run of the open-section
fixture, whose append-call list is exactly the one the amended theorem
predicts. -/
theorem c1_amended_witness :
    enroll_student evaluateAllEngine stOpen 1 3 9 7 =
      ((enroll_student evaluateAllEngine stOpen 1 3 9 7).1,
        .ok ({ id := 7, student_id := 1, section_id := 3,
               enrollment_status := "enrolled", is_waitlisted := false,
               waitlist_position := none }, [⟨"enrollment-7", none⟩])) ∧
    [(⟨"enrollment-7", none⟩ : AppendCall)] =
      [⟨"enrollment-" ++ toString 7, none⟩] :=
  ⟨by rfl,
    (c1_appends_at_tail_with_none evaluateAllEngine stOpen 1 3 9 7).1
      (enroll_student evaluateAllEngine stOpen 1 3 9 7).1
      { id := 7, student_id := 1, section_id := 3,
        enrollment_status := "enrolled", is_waitlisted := false,
        waitlist_position := none }
      [⟨"enrollment-7", none⟩] (by rfl)⟩

theorem enroll_student_denied
    (engine : Nat → Nat → Context → Bool × List PolicyResult)
    (st : ServiceState) (student_id section_id user_id newId : Nat)
    (sec : SectionModel) (course : CourseModel) (stu : StudentModel)
    (results : List PolicyResult)
    (hsec : getSection st.db section_id = some sec)
    (hcourse : getCourse st.db sec.course_id = some course)
    (hstu : getStudent st.db student_id = some stu)
    (hex : checkExistingEnrollment st.db student_id section_id = none)
    (heng : engine student_id section_id
      (buildPolicyContext st.db student_id stu sec course) = (false, results)) :
    enroll_student engine st student_id section_id user_id newId =
      (st, .error (.policyViolation (deniedReason results) (deniedRules results))) := by
  unfold enroll_student
  rw [hsec]
  dsimp only
  rw [hcourse]
  dsimp only
  rw [hstu]
  dsimp only
  rw [if_neg (by simp [hex])]
  rw [heng]
  rfl

/-- C2: when the policy engine denies the request, `enroll_student` raises
the policy-violation error carrying the first-failing result's reason and
rules, and the returned state is exactly the input state: no stream append,
no snapshot, no read-model row, and unchanged section counters. -/
theorem c2_denial_without_side_effects
    (engine : Nat → Nat → Context → Bool × List PolicyResult)
    (st : ServiceState) (student_id section_id user_id newId : Nat)
    (sec : SectionModel) (course : CourseModel) (stu : StudentModel)
    (results : List PolicyResult)
    (hsec : getSection st.db section_id = some sec)
    (hcourse : getCourse st.db sec.course_id = some course)
    (hstu : getStudent st.db student_id = some stu)
    (hex : checkExistingEnrollment st.db student_id section_id = none)
    (heng : engine student_id section_id
      (buildPolicyContext st.db student_id stu sec course) = (false, results)) :
    enroll_student engine st student_id section_id user_id newId =
      (st, .error (.policyViolation (deniedReason results) (deniedRules results))) :=
  enroll_student_denied engine st student_id section_id user_id newId
    sec course stu results hsec hcourse hstu hex heng

/-- C2 witness: scenario S1 — prerequisites `[CS-101, MATH-100]`, completed
`[CS-101]` — yields the prerequisite denial with the input state returned
untouched. -/
theorem c2_denial_witness :
    getSection stPrereq.db 2 = some targetSection ∧
    getCourse stPrereq.db targetSection.course_id = some csCourse ∧
    getStudent stPrereq.db 1 = some sampleStudent ∧
    checkExistingEnrollment stPrereq.db 1 2 = none ∧
    evaluateAllEngine 1 2
        (buildPolicyContext stPrereq.db 1 sampleStudent targetSection csCourse) =
      (false, (evaluateAllEngine 1 2
        (buildPolicyContext stPrereq.db 1 sampleStudent targetSection csCourse)).2) ∧
    enroll_student evaluateAllEngine stPrereq 1 2 9 7 =
      (stPrereq, .error (.policyViolation ("Missing prerequisites")
        ["prerequisite_requirement"])) :=
  ⟨rfl, rfl, rfl, rfl, rfl,
    (c2_denial_without_side_effects evaluateAllEngine stPrereq 1 2 9 7
      targetSection csCourse sampleStudent
      (evaluateAllEngine 1 2
        (buildPolicyContext stPrereq.db 1 sampleStudent targetSection csCourse)).2
      rfl rfl rfl rfl rfl).trans (by rfl)⟩

/-- C3: on a policy-allowed call, if `current_enrollment < max_enrollment`
the row is created with status `enrolled` and the section's
`current_enrollment` rises by exactly 1 (all other section fields kept);
otherwise if `waitlist_size < max_waitlist` the row is `waitlisted` at
position `waitlist_size + 1` and `waitlist_size` rises by exactly 1;
otherwise the call fails with SectionFull and the state — hence both
counters — is unchanged. -/
theorem c3_enroll_waitlist_sectionfull
    (engine : Nat → Nat → Context → Bool × List PolicyResult)
    (st : ServiceState) (student_id section_id user_id newId : Nat)
    (sec : SectionModel) (course : CourseModel) (stu : StudentModel)
    (results : List PolicyResult)
    (hsec : getSection st.db section_id = some sec)
    (hcourse : getCourse st.db sec.course_id = some course)
    (hstu : getStudent st.db student_id = some stu)
    (hex : checkExistingEnrollment st.db student_id section_id = none)
    (heng : engine student_id section_id
      (buildPolicyContext st.db student_id stu sec course) = (true, results)) :
    (sec.current_enrollment < sec.max_enrollment →
      ∃ st1 calls,
        enroll_student engine st student_id section_id user_id newId =
          (st1, .ok ({ id := newId, student_id := student_id,
                       section_id := section_id, enrollment_status := "enrolled",
                       is_waitlisted := false, waitlist_position := none }, calls)) ∧
        getSection st1.db section_id =
          some { sec with current_enrollment := sec.current_enrollment + 1 }) ∧
    (¬ sec.current_enrollment < sec.max_enrollment →
      sec.waitlist_size < sec.max_waitlist →
      ∃ st1 calls,
        enroll_student engine st student_id section_id user_id newId =
          (st1, .ok ({ id := newId, student_id := student_id,
                       section_id := section_id, enrollment_status := "waitlisted",
                       is_waitlisted := true,
                       waitlist_position := some (sec.waitlist_size + 1) }, calls)) ∧
        getSection st1.db section_id =
          some { sec with waitlist_size := sec.waitlist_size + 1 }) ∧
    (¬ sec.current_enrollment < sec.max_enrollment →
      ¬ sec.waitlist_size < sec.max_waitlist →
      enroll_student engine st student_id section_id user_id newId =
        (st, .error .sectionFull)) := by
  have hmain : enroll_student engine st student_id section_id user_id newId =
      (if sec.current_enrollment < sec.max_enrollment then
        finishEnrollment st { sec with current_enrollment := sec.current_enrollment + 1 }
          ((EnrollmentAggregate.fresh newId).enrollStudent student_id section_id
            course.course_code user_id) newId student_id section_id
      else if sec.waitlist_size ≥ sec.max_waitlist then (st, .error .sectionFull)
      else
        finishEnrollment st { sec with waitlist_size := sec.waitlist_size + 1 }
          ((EnrollmentAggregate.fresh newId).addToWaitlist student_id section_id
            (sec.waitlist_size + 1) user_id) newId student_id section_id) := by
    unfold enroll_student
    rw [hsec]
    dsimp only
    rw [hcourse]
    dsimp only
    rw [hstu]
    dsimp only
    rw [if_neg (by simp [hex])]
    rw [heng]
    rfl
  refine ⟨?_, ?_, ?_⟩
  · intro hcap
    rw [hmain, if_pos hcap]
    obtain ⟨store2, hfin⟩ := finishEnrollment_spec st
      { sec with current_enrollment := sec.current_enrollment + 1 }
      ((EnrollmentAggregate.fresh newId).enrollStudent student_id section_id
        course.course_code user_id) newId student_id section_id
    rw [hfin]
    refine ⟨_, _, rfl, ?_⟩
    exact find?_replace st.db.sections section_id sec
      { sec with current_enrollment := sec.current_enrollment + 1 } hsec rfl
  · intro hcap hwl
    rw [hmain, if_neg hcap, if_neg (by omega)]
    obtain ⟨store2, hfin⟩ := finishEnrollment_spec st
      { sec with waitlist_size := sec.waitlist_size + 1 }
      ((EnrollmentAggregate.fresh newId).addToWaitlist student_id section_id
        (sec.waitlist_size + 1) user_id) newId student_id section_id
    rw [hfin]
    refine ⟨_, _, rfl, ?_⟩
    exact find?_replace st.db.sections section_id sec
      { sec with waitlist_size := sec.waitlist_size + 1 } hsec rfl
  · intro hcap hwl
    rw [hmain, if_neg hcap, if_pos (by omega)]

/-- C3 witness: the open-section fixture (capacity 1 of 2) yields an
`enrolled` row and `current_enrollment = 2`. -/
theorem c3_enroll_witness :
    getSection stOpen.db 3 = some openSection ∧
    getCourse stOpen.db openSection.course_id = some introCourse ∧
    getStudent stOpen.db 1 = some sampleStudent ∧
    checkExistingEnrollment stOpen.db 1 3 = none ∧
    evaluateAllEngine 1 3
        (buildPolicyContext stOpen.db 1 sampleStudent openSection introCourse) =
      (true, (evaluateAllEngine 1 3
        (buildPolicyContext stOpen.db 1 sampleStudent openSection introCourse)).2) ∧
    openSection.current_enrollment < openSection.max_enrollment ∧
    (∃ st1 calls,
      enroll_student evaluateAllEngine stOpen 1 3 9 7 =
        (st1, .ok ({ id := 7, student_id := 1, section_id := 3,
                     enrollment_status := "enrolled", is_waitlisted := false,
                     waitlist_position := none }, calls)) ∧
      getSection st1.db 3 =
        some { openSection with
                 current_enrollment := openSection.current_enrollment + 1 }) :=
  ⟨rfl, rfl, rfl, rfl, rfl, by decide,
    (c3_enroll_waitlist_sectionfull evaluateAllEngine stOpen 1 3 9 7
      openSection introCourse sampleStudent
      (evaluateAllEngine 1 3
        (buildPolicyContext stOpen.db 1 sampleStudent openSection introCourse)).2
      rfl rfl rfl rfl rfl).1 (by decide)⟩

/-- C7: on the S6 fixture — section at capacity, enrolled row plus waitlist
positions 1 and 2 — the gateway's drop endpoint fails with HTTP 501 Not
Implemented and returns the state untouched: nobody is promoted, no position
is renumbered, and neither counter moves. -/
theorem c7_drop_not_implemented :
    drop_enrollment stDrop 601 =
      (stDrop, .error
        ⟨501, "Drop enrollment will be implemented in Academic Service"⟩) ∧
    getSection stDrop.db 5 = some waitlistedSection ∧
    (stDrop.db.enrollments.filter
      (fun e => e.enrollment_status == "waitlisted")).map
        (fun e => e.waitlist_position) = [some 1, some 2] :=
  ⟨rfl, rfl, rfl⟩

/-- C8: the engine evaluates the five policies in the fixed order
Prerequisite, Capacity, TimeConflict, CreditLimit, AcademicStanding, and on
denial the service's surfacing (`deniedReason`/`deniedRules`, the embedded
first-failing selection of src lines 110-122) returns exactly the reason and
rules of the first policy in that order whose result is not allowed; through
`enroll_student` these are the values carried by the raised denial. -/
theorem c8_fixed_order_first_failure
    (ctx : Context) (hd : (evaluateAll ctx).1 = false) :
    (deniedReason (evaluateAll ctx).2 = (firstFailing ctx).reason ∧
      deniedRules (evaluateAll ctx).2 = (firstFailing ctx).violated_rules ∧
      (firstFailing ctx).allowed = false) ∧
    (∀ (st : ServiceState) (student_id section_id user_id newId : Nat)
      (sec : SectionModel) (course : CourseModel) (stu : StudentModel),
      getSection st.db section_id = some sec →
      getCourse st.db sec.course_id = some course →
      getStudent st.db student_id = some stu →
      checkExistingEnrollment st.db student_id section_id = none →
      buildPolicyContext st.db student_id stu sec course = ctx →
      enroll_student evaluateAllEngine st student_id section_id user_id newId =
        (st, .error (.policyViolation (firstFailing ctx).reason
          (firstFailing ctx).violated_rules))) := by
  have hcore : deniedReason (evaluateAll ctx).2 = (firstFailing ctx).reason ∧
      deniedRules (evaluateAll ctx).2 = (firstFailing ctx).violated_rules ∧
      (firstFailing ctx).allowed = false := by
    have hall : (evaluateAll ctx).1 =
        ((prerequisitePolicy ctx).allowed && ((capacityPolicy ctx).allowed &&
          ((timeConflictPolicy ctx).allowed && ((creditLimitPolicy 18 ctx).allowed &&
            ((academicStandingPolicy ctx).allowed && true))))) := rfl
    rw [hall] at hd
    have hres : (evaluateAll ctx).2 =
        [prerequisitePolicy ctx, capacityPolicy ctx, timeConflictPolicy ctx,
         creditLimitPolicy 18 ctx, academicStandingPolicy ctx] := rfl
    rw [hres]
    unfold deniedReason deniedRules firstFailing
    by_cases h1 : (prerequisitePolicy ctx).allowed <;>
      by_cases h2 : (capacityPolicy ctx).allowed <;>
      by_cases h3 : (timeConflictPolicy ctx).allowed <;>
      by_cases h4 : (creditLimitPolicy 18 ctx).allowed <;>
      by_cases h5 : (academicStandingPolicy ctx).allowed <;>
      simp_all [List.find?_cons]
  refine ⟨hcore, ?_⟩
  intro st student_id section_id user_id newId sec course stu
    hsec hcourse hstu hex hctx
  have heng : evaluateAllEngine student_id section_id
      (buildPolicyContext st.db student_id stu sec course) =
      (false, (evaluateAll ctx).2) := by
    rw [hctx]
    show evaluateAll ctx = (false, (evaluateAll ctx).2)
    rw [← hd]
  rw [enroll_student_denied evaluateAllEngine st student_id section_id user_id newId
    sec course stu ((evaluateAll ctx).2) hsec hcourse hstu hex heng,
    hcore.1, hcore.2.1]

/-- C8 witness: in a context whose prerequisites pass but whose section is
full, the surfaced denial is exactly the Capacity result — the second policy
in the fixed order, the first to fail. -/
theorem c8_order_witness :
    (evaluateAll deniedCtx).1 = false ∧
    deniedReason (evaluateAll deniedCtx).2 = (firstFailing deniedCtx).reason ∧
    firstFailing deniedCtx = capacityPolicy deniedCtx ∧
    deniedReason (evaluateAll deniedCtx).2 = "Section is at capacity" ∧
    deniedRules (evaluateAll deniedCtx).2 = ["capacity_limit"] :=
  ⟨rfl, (c8_fixed_order_first_failure deniedCtx rfl).1.1, by decide, rfl, rfl⟩

/-- C9: the current-schedule and current-credits queries ignore any row whose
status is not exactly `enrolled` (so waitlisted rows contribute to neither),
and the policy context wires exactly these queries into
`student_current_credits` and `student_current_schedule`. -/
theorem c9_only_enrolled_contribute
    (db : ReadModel) (r : EnrollmentRow) (student_id : Nat) (semester : String)
    (hr : r.enrollment_status ≠ "enrolled") :
    getCurrentEnrollments { db with enrollments := r :: db.enrollments }
        student_id semester = getCurrentEnrollments db student_id semester ∧
    calculateCurrentCredits { db with enrollments := r :: db.enrollments }
        student_id semester = calculateCurrentCredits db student_id semester ∧
    (∀ (stu : StudentModel) (sec : SectionModel) (course : CourseModel),
      (buildPolicyContext db student_id stu sec course).student_current_credits =
        calculateCurrentCredits db student_id sec.semester ∧
      (buildPolicyContext db student_id stu sec course).student_current_schedule =
        getCurrentEnrollments db student_id sec.semester) := by
  refine ⟨?_, ?_, fun stu sec course => ⟨rfl, rfl⟩⟩
  · unfold getCurrentEnrollments
    simp [List.filter_cons, hr]
  · unfold calculateCurrentCredits
    simp [List.filter_cons, hr]

/-- C9 witness: adding a waitlisted row for the sample student changes
neither the schedule nor the credit total used by the policies. -/
theorem c9_waitlisted_witness :
    ((⟨301, 1, 3, "waitlisted", true, some 1⟩ : EnrollmentRow).enrollment_status ≠
      "enrolled") ∧
    getCurrentEnrollments stActive.db 1 ("F25") =
      getCurrentEnrollments stOpen.db 1 ("F25") ∧
    calculateCurrentCredits stActive.db 1 ("F25") =
      calculateCurrentCredits stOpen.db 1 ("F25") :=
  ⟨by decide,
    (c9_only_enrolled_contribute dbOpen ⟨301, 1, 3, "waitlisted", true, some 1⟩
      1 ("F25") (by decide)).1,
    (c9_only_enrolled_contribute dbOpen ⟨301, 1, 3, "waitlisted", true, some 1⟩
      1 ("F25") (by decide)).2.1⟩

theorem checkExisting_isSome_iff (db : ReadModel) (student_id section_id : Nat) :
    (checkExistingEnrollment db student_id section_id).isSome = true ↔
      ∃ e ∈ db.enrollments, e.student_id = student_id ∧
        e.section_id = section_id ∧
        (e.enrollment_status = "enrolled" ∨ e.enrollment_status = "waitlisted") := by
  unfold checkExistingEnrollment
  rw [List.find?_isSome]
  simp [Bool.and_eq_true, List.contains, List.elem_iff, and_assoc]

theorem enroll_no_dup_error
    (engine : Nat → Nat → Context → Bool × List PolicyResult)
    (st : ServiceState) (student_id section_id user_id newId : Nat)
    (sec : SectionModel) (course : CourseModel) (stu : StudentModel)
    (hsec : getSection st.db section_id = some sec)
    (hcourse : getCourse st.db sec.course_id = some course)
    (hstu : getStudent st.db student_id = some stu)
    (hex : checkExistingEnrollment st.db student_id section_id = none) :
    (enroll_student engine st student_id section_id user_id newId).2 ≠
      .error .alreadyEnrolled := by
  unfold enroll_student
  rw [hsec]
  dsimp only
  rw [hcourse]
  dsimp only
  rw [hstu]
  dsimp only
  rw [if_neg (by simp [hex])]
  by_cases hallow : (engine student_id section_id
      (buildPolicyContext st.db student_id stu sec course)).1 = true
  · rw [if_neg (by simp [hallow])]
    by_cases hcap : sec.current_enrollment < sec.max_enrollment
    · rw [if_pos hcap]
      obtain ⟨store2, hfin⟩ := finishEnrollment_spec st
        { sec with current_enrollment := sec.current_enrollment + 1 }
        ((EnrollmentAggregate.fresh newId).enrollStudent student_id section_id
          course.course_code user_id) newId student_id section_id
      rw [hfin]
      simp
    · rw [if_neg hcap]
      by_cases hwl : sec.waitlist_size ≥ sec.max_waitlist
      · rw [if_pos hwl]
        simp
      · rw [if_neg hwl]
        obtain ⟨store2, hfin⟩ := finishEnrollment_spec st
          { sec with waitlist_size := sec.waitlist_size + 1 }
          ((EnrollmentAggregate.fresh newId).addToWaitlist student_id section_id
            (sec.waitlist_size + 1) user_id) newId student_id section_id
        rw [hfin]
        simp
  · rw [if_pos (by simp [Bool.not_eq_true] at hallow; simp [hallow])]
    simp

theorem enroll_dup_error
    (engine : Nat → Nat → Context → Bool × List PolicyResult)
    (st : ServiceState) (student_id section_id user_id newId : Nat)
    (sec : SectionModel) (course : CourseModel) (stu : StudentModel)
    (hsec : getSection st.db section_id = some sec)
    (hcourse : getCourse st.db sec.course_id = some course)
    (hstu : getStudent st.db student_id = some stu)
    (hex : (checkExistingEnrollment st.db student_id section_id).isSome = true) :
    enroll_student engine st student_id section_id user_id newId =
      (st, .error .alreadyEnrolled) := by
  unfold enroll_student
  rw [hsec]
  dsimp only
  rw [hcourse]
  dsimp only
  rw [hstu]
  dsimp only
  rw [if_pos hex]

/-- C10: with student, section and course resolvable, `enroll_student` fails
with the already-enrolled error iff some existing row for the pair has status
`enrolled` or `waitlisted`; rows with status `dropped` or `completed` do not
block. -/
theorem c10_already_enrolled_iff
    (engine : Nat → Nat → Context → Bool × List PolicyResult)
    (st : ServiceState) (student_id section_id user_id newId : Nat)
    (sec : SectionModel) (course : CourseModel) (stu : StudentModel)
    (hsec : getSection st.db section_id = some sec)
    (hcourse : getCourse st.db sec.course_id = some course)
    (hstu : getStudent st.db student_id = some stu) :
    (enroll_student engine st student_id section_id user_id newId).2 =
        .error .alreadyEnrolled ↔
      ∃ e ∈ st.db.enrollments, e.student_id = student_id ∧
        e.section_id = section_id ∧
        (e.enrollment_status = "enrolled" ∨ e.enrollment_status = "waitlisted") := by
  constructor
  · intro hres
    by_cases hx : (checkExistingEnrollment st.db student_id section_id).isSome = true
    · exact (checkExisting_isSome_iff st.db student_id section_id).mp hx
    · have hnone : checkExistingEnrollment st.db student_id section_id = none := by
        cases h : checkExistingEnrollment st.db student_id section_id with
        | none => rfl
        | some e => rw [h] at hx; simp at hx
      exact absurd hres (enroll_no_dup_error engine st student_id section_id
        user_id newId sec course stu hsec hcourse hstu hnone)
  · intro hexists
    have hsome := (checkExisting_isSome_iff st.db student_id section_id).mpr hexists
    rw [enroll_dup_error engine st student_id section_id user_id newId
      sec course stu hsec hcourse hstu hsome]

/-- C10 witness: a prior `dropped` row does not trigger the already-enrolled
error, while an active `waitlisted` row does. -/
theorem c10_active_row_witness :
    (¬ ∃ e ∈ stDropped.db.enrollments, e.student_id = 1 ∧ e.section_id = 3 ∧
      (e.enrollment_status = "enrolled" ∨ e.enrollment_status = "waitlisted")) ∧
    (enroll_student evaluateAllEngine stDropped 1 3 9 7).2 ≠
      .error .alreadyEnrolled ∧
    (enroll_student evaluateAllEngine stActive 1 3 9 8).2 =
      .error .alreadyEnrolled :=
  ⟨by decide,
    fun h => absurd ((c10_already_enrolled_iff evaluateAllEngine stDropped
      1 3 9 7 openSection introCourse sampleStudent rfl rfl rfl).mp h)
      (by decide),
    (c10_already_enrolled_iff evaluateAllEngine stActive
      1 3 9 8 openSection introCourse sampleStudent rfl rfl rfl).mpr
      ⟨⟨301, 1, 3, "waitlisted", true, some 1⟩, by decide, by decide⟩⟩

end SmartCampus
